import Mathlib

/-!
Verification of the VisionQC decision engine and content-addressed result
store, shallowly embedded from `src/api/local_ai_api.py`, `src/db/db.py`
and `src/utils/config.py`.

The decision engine is modelled on post-softmax probability vectors
(rational numbers stand in for the floating-point probabilities); the
SQLite-backed store is modelled as an explicit list of records together
with the auto-increment counter, and the two UNIQUE indices of
`ensure_schema` (on `image_path` and on `image_hash`) are reflected in the
semantics of the operations.
-/

namespace VisionQC

/-! ## Configuration (`src/utils/config.py`) -/

/-- Python `str.split(sep)` for a one-character separator, on the
character list of a string.  Always returns at least one group. -/
def splitOnChar (sep : Char) : List Char → List (List Char)
  | [] => [[]]
  | c :: cs =>
    match splitOnChar sep cs with
    | [] => [[c]]
    | g :: gs => if c = sep then [] :: g :: gs else (c :: g) :: gs

/-- Python `str.strip()`: drop leading and trailing whitespace. -/
def stripChars (cs : List Char) : List Char :=
  ((cs.dropWhile Char.isWhitespace).reverse.dropWhile Char.isWhitespace).reverse

/-- Constant `DEFAULT_DEFECT_LABELS` from `utils/config.py` lines 16-18: the
comma-separated external label string. -/
def DEFAULT_DEFECT_LABELS : String :=
  "no_defect, dent, scratch, crack, glass shatter, lamp broken, tire flat"

/-- Constant `DEFECT_LABELS` from `utils/config.py` line 21: split on commas, strip
whitespace, drop empties. -/
def DEFECT_LABELS : List String :=
  (((splitOnChar ',' DEFAULT_DEFECT_LABELS.data).map
      (fun g => String.mk (stripChars g))).filter (fun l => l ≠ ""))

/-! ## Decision engine (`src/api/local_ai_api.py`) -/

/-- Constant `CONFIG_DEFECT_LABELS` from `local_ai_api.py` lines 25-27: the same
split of `DEFAULT_DEFECT_LABELS`. -/
def CONFIG_DEFECT_LABELS : List String :=
  (((splitOnChar ',' DEFAULT_DEFECT_LABELS.data).map
      (fun g => String.mk (stripChars g))).filter (fun l => l ≠ ""))

/-- Constant `INTERNAL_DEFECT_LABELS` from `local_ai_api.py` lines 30-37: the CarDD
model output order. -/
def INTERNAL_DEFECT_LABELS : List String :=
  ["dent", "scratch", "crack", "glass shatter", "lamp broken", "tire flat"]

/-- Constant `SEVERITY_LABELS` from `local_ai_api.py` line 39. -/
def SEVERITY_LABELS : List String := ["minor", "moderate", "severe"]

/-- Constant `LOCATION_LABELS` from `local_ai_api.py` line 40. -/
def LOCATION_LABELS : List String := ["front", "rear", "side"]

/-- Constant `NO_DEFECT_THRESHOLD` from `local_ai_api.py` line 43 (0.25). -/
def NO_DEFECT_THRESHOLD : ℚ := mkRat 1 4

/-- Function `_norm` from `local_ai_api.py` lines 50-51:
lowercase, spaces to underscores, strip (in that order; replacing the
one-character pattern `" "` is a per-character substitution). -/
def norm (s : String) : String :=
  String.mk (stripChars ((s.data.map Char.toLower).map
    (fun c => if c = ' ' then '_' else c)))

/-- Constant `CONFIG_DEFECT_MAP` from `local_ai_api.py` lines 53-55: association
list from normalised config label to config label. -/
def CONFIG_DEFECT_MAP : List (String × String) :=
  CONFIG_DEFECT_LABELS.map (fun lbl => (norm lbl, lbl))

/-- Function `map_internal_defect_to_config` from `local_ai_api.py` lines 58-65:
normalised-key lookup, falling back to the original name. -/
def map_internal_defect_to_config (name : String) : String :=
  (CONFIG_DEFECT_MAP.lookup (norm name)).getD name

/-- Model of `torch.max(dim=1)` over a probability vector: value and index of the
first maximum (strictly greater values displace the running best, ties
keep the earlier index). Returns `(index, value)`; `(0, 0)` on the empty
vector (unreachable in the program, where vectors have fixed length). -/
def argmaxFrom : List ℚ → Nat → Nat → ℚ → Nat × ℚ
  | [], _, bi, bv => (bi, bv)
  | x :: xs, i, bi, bv =>
      if bv < x then argmaxFrom xs (i+1) i x else argmaxFrom xs (i+1) bi bv

/-- Arg-max of a probability vector, see `argmaxFrom`. -/
def argmax (l : List ℚ) : Nat × ℚ :=
  match l with
  | [] => (0, 0)
  | x :: xs => argmaxFrom xs 1 0 x

/-- Function `_severity_to_abc` from `local_ai_api.py` lines 144-155:
severe→A, moderate→B, anything else (minor included)→C. -/
def severity_to_abc (sev : String) : String :=
  let sev := String.mk (sev.data.map Char.toLower)
  if sev = "severe" then "A"
  else if sev = "moderate" then "B"
  else "C"

/-- Function `_decide_action` from `local_ai_api.py` lines 158-174: no_defect→Pass,
tier A→Reject, tier B→Rework, anything else (C included)→Hold. -/
def decide_action (label : String) (severity_abc : String) : String :=
  if label = "no_defect" then "Pass"
  else if severity_abc = "A" then "Reject"
  else if severity_abc = "B" then "Rework"
  else "Hold"

/-- Function `_build_description` from `local_ai_api.py` lines 177-192 (Korean
description template keyed by label, tier, zone). -/
def build_description (label : String) (severity_abc : String)
    (location : String) : String :=
  if label = "no_defect" then "눈에 띄는 결함이 감지되지 않았습니다."
  else
    let korean_location := [("front", "전면부"), ("rear", "후면부"), ("side", "측면부")]
    let korean_severity := [("C", "경미한"), ("B", "보통 수준의"), ("A", "심각한")]
    let korean_label := [("dent", "찌그러짐"), ("scratch", "긁힘"), ("crack", "균열"),
      ("glass shatter", "유리 깨짐"), ("lamp broken", "램프 고장"), ("tire flat", "타이어 터짐")]
    "위치: " ++ (korean_location.lookup location).getD "" ++
    ", 등급: " ++ (korean_severity.lookup severity_abc).getD "" ++
    " 수준의 " ++ (korean_label.lookup label).getD "" ++
    " 결함이 감지되었습니다."

/-- The engine's output record, the dict returned by `classify_image`
(`local_ai_api.py` lines 251-258). -/
structure Verdict where
  label : String
  confidence : ℚ
  description : String
  severity : String
  location : String
  action : String
deriving Repr, DecidableEq

/-- The post-softmax core of `classify_image` (`local_ai_api.py` lines
220-258): given the three probability vectors (defect, severity, location)
produced by softmax over the model logits, compute the verdict.  The
model loading, image preprocessing and softmax themselves are outside the
embedding; the vectors are the function's input, exactly as consumed at
lines 222-239. -/
def classify_probs (probs_def probs_sev probs_loc : List ℚ) : Verdict :=
  let conf_idx := argmax probs_def
  let conf := conf_idx.2
  let idx := conf_idx.1
  let internal_defect := INTERNAL_DEFECT_LABELS.getD idx ""
  let idx_sev := (argmax probs_sev).1
  let sev_label_internal := SEVERITY_LABELS.getD idx_sev ""
  let sev_abc := severity_to_abc sev_label_internal
  let idx_loc := (argmax probs_loc).1
  let loc_label := LOCATION_LABELS.getD idx_loc ""
  let final_label :=
    if conf < NO_DEFECT_THRESHOLD then "no_defect"
    else map_internal_defect_to_config internal_defect
  let action := decide_action final_label sev_abc
  let description := build_description final_label sev_abc loc_label
  { label := final_label, confidence := conf, description := description,
    severity := sev_abc, location := loc_label, action := action }

/-! ## Content-addressed result store (`src/db/db.py`)

The SQLite table `results` from `ensure_schema` is modelled as a list of
rows plus the `AUTOINCREMENT` counter.  `ensure_schema` creates two
UNIQUE indices, `idx_results_image_path` on `image_path` (line 48) and
`idx_results_image_hash` on `image_hash` (line 49); their effect is
reflected in the semantics of `insert_result` (INSERT OR IGNORE: a
violated constraint silently skips the row, `rowcount = 0`) and of the
plain INSERT/UPDATE in `upsert_result` (a violated constraint raises
`IntegrityError` and nothing is committed).  `_file_sha256` streams the
file through SHA-256; the operations below take the resulting digest
`ihash` as an explicit argument, exactly as it is used from line 66/100
onwards.  The `ts or datetime.now()` default is modelled by passing the
current clock string `now` explicitly. -/

/-- One row of the `results` table (`db.py` lines 32-46). -/
structure Record where
  id : Nat
  file_name : String
  image_path : String
  image_hash : String
  defect_type : String
  severity : String
  location : String
  score : ℚ
  detail : String
  action : String
  ts : String
deriving Repr, DecidableEq

/-- The store: committed rows plus the AUTOINCREMENT counter (next id to
assign; SQLite starts at 1 on an empty table). -/
structure Store where
  records : List Record
  nextId : Nat
deriving Repr, DecidableEq

/-- The empty store, as after `ensure_schema` on a fresh database. -/
def emptyStore : Store := { records := [], nextId := 1 }

/-- Model of `Path(image_path).name` (`db.py` lines 67/101): the last
path component. -/
def pathName (p : String) : String :=
  String.mk ((splitOnChar '/' p.data).getLastD [])

/-- The label validation shared by `insert_result` (lines 71-72) and
`upsert_result` (lines 104-105): an unrecognized label is replaced by
`DEFECT_LABELS[0]`. -/
def coerceLabel (defect_type : String) : String :=
  if defect_type ∈ DEFECT_LABELS then defect_type else DEFECT_LABELS.headD ""

/-- The row built by the INSERT statements of `insert_result` and
`upsert_result` (lines 76-83 / 125-132). -/
def mkRecord (id : Nat) (image_path ihash defect_type severity location : String)
    (score : ℚ) (detail action ts_val : String) : Record :=
  { id := id
    file_name := pathName image_path
    image_path := image_path
    image_hash := ihash
    defect_type := coerceLabel defect_type
    severity := severity
    location := location
    score := score
    detail := detail
    action := action
    ts := ts_val }

/-- Whether a committed row already violates one of the two UNIQUE
indices against a row with this `image_hash` and `image_path` — the
conflict tested by INSERT under `idx_results_image_hash` and
`idx_results_image_path`. -/
def hashOrPathDup (image_path ihash : String) (s : Store) : Bool :=
  s.records.any (fun r => decide (r.image_hash = ihash ∨ r.image_path = image_path))

/-- Evaluation of `SELECT id FROM results WHERE image_hash = ?` plus
`fetchone()` (`db.py` lines 109-110): the first committed row with this
digest, if any. -/
def findByHash (ihash : String) (s : Store) : Option Record :=
  s.records.find? (fun r => decide (r.image_hash = ihash))

/-- Whether the UPDATE of `upsert_result` would violate the unique path
index: some row other than the one being updated already holds the new
path. -/
def pathTakenByOther (rid : Nat) (image_path : String) (s : Store) : Bool :=
  s.records.any (fun r2 => decide (r2.id ≠ rid ∧ r2.image_path = image_path))

/-- Function `insert_result` (`db.py` lines 55-87): INSERT OR IGNORE under the two
UNIQUE indices — if any committed row already has this `image_hash` or
this `image_path`, nothing is written and `rowcount = 0`, so the function
returns `false`; otherwise one row is appended and it returns `true`.
Returns the boolean result together with the resulting store. -/
def insert_result (image_path ihash defect_type severity location : String)
    (score : ℚ) (detail action : String) (ts : Option String) (now : String)
    (s : Store) : Bool × Store :=
  let ts_val := ts.getD now
  let newRec := mkRecord s.nextId image_path ihash defect_type severity location
    score detail action ts_val
  if hashOrPathDup image_path ihash s then
    (false, s)
  else
    (true, { records := s.records ++ [newRec], nextId := s.nextId + 1 })

/-- Exception `sqlite3.IntegrityError`: a UNIQUE index violated by a plain
INSERT or UPDATE. -/
inductive IntegrityError where
  | uniqueViolation
deriving Repr, DecidableEq

/-- Function `upsert_result` (`db.py` lines 89-136): look up the committed row with
this `image_hash` (at most one, by the UNIQUE index); if found, UPDATE
every classification field and the timestamp in place and return its id;
otherwise plain-INSERT a new row and return `lastrowid`.  The UPDATE sets
`image_path`, so it raises `IntegrityError` when a different committed
row already holds the new path; the plain INSERT raises when the path or
the digest is already committed.  On an error nothing is committed and
the store is unchanged. -/
def upsert_result (image_path ihash defect_type severity location : String)
    (score : ℚ) (detail action : String) (ts : Option String) (now : String)
    (s : Store) : Except IntegrityError Nat × Store :=
  let file_name := pathName image_path
  let ts_val := ts.getD now
  let dt := coerceLabel defect_type
  let updateRow : Record → Record := fun r2 =>
    { r2 with
      file_name := file_name
      image_path := image_path
      defect_type := dt
      severity := severity
      location := location
      score := score
      detail := detail
      action := action
      ts := ts_val }
  match findByHash ihash s with
  | some r =>
    let rid := r.id
    if pathTakenByOther rid image_path s then
      (.error .uniqueViolation, s)
    else
      (.ok rid,
       { s with records := s.records.map (fun r2 => if r2.id = rid then updateRow r2 else r2) })
  | none =>
    if hashOrPathDup image_path ihash s then
      (.error .uniqueViolation, s)
    else
      let newRec := mkRecord s.nextId image_path ihash defect_type severity location
        score detail action ts_val
      (.ok s.nextId, { records := s.records ++ [newRec], nextId := s.nextId + 1 })

/-- Comparator for `ORDER BY datetime(ts) DESC, id DESC` (`db.py` lines 143/171): `a`
sorts before `b` iff `a.ts > b.ts`, ties broken by larger id first.  The
`ts` strings are in the sortable `YYYY-MM-DD HH:MM:SS` format, on which
`datetime` ordering and lexicographic ordering coincide. -/
def rowBefore (a b : Record) : Bool :=
  decide (b.ts < a.ts) || (decide (a.ts = b.ts) && decide (b.id ≤ a.id))

/-- Insert a row into an already ordered list (descending, `rowBefore`). -/
def insertRow (r : Record) : List Record → List Record
  | [] => [r]
  | x :: xs => if rowBefore r x then r :: x :: xs else x :: insertRow r xs

/-- Stable sort of the rows by `ORDER BY datetime(ts) DESC, id DESC`. -/
def orderRows : List Record → List Record
  | [] => []
  | x :: xs => insertRow x (orderRows xs)

/-- Function `fetch_results` (`db.py` lines 138-146): all rows, ordered by
`datetime(ts) DESC, id DESC`, truncated to `limit`. -/
def fetch_results (limit : Nat) (s : Store) : List Record :=
  (orderRows s.records).take limit

/-- Whether the first character list starts the second. -/
def charsStart : List Char → List Char → Bool
  | [], _ => true
  | _ :: _, [] => false
  | a :: as, b :: bs => a = b && charsStart as bs

/-- Whether the first character list occurs inside the second. -/
def charsInside (needle : List Char) : List Char → Bool
  | [] => needle.isEmpty
  | c :: cs => charsStart needle (c :: cs) || charsInside needle cs

/-- SQLite `LIKE '%needle%'`: case-insensitive (ASCII) substring test. -/
def likeContains (haystack needle : String) : Bool :=
  charsInside (needle.data.map Char.toLower) (haystack.data.map Char.toLower)

/-- Python truthiness of an optional string filter argument (`db.py`
lines 155-170: `if defect_type:` etc.): absent or empty means the
predicate is omitted. -/
def optActive (o : Option String) : Bool := o.getD "" ≠ ""

/-- SQLite `date(ts)`: the date portion (first 10 characters) of a
`YYYY-MM-DD HH:MM:SS` timestamp string. -/
def datePart (ts : String) : String := String.mk (ts.data.take 10)

/-- The WHERE clause assembled by `search_results` (`db.py` lines
152-170): the conjunction of the optional predicates. -/
def searchPred (defect_type severity action location keyword date_from date_to :
    Option String) (r : Record) : Bool :=
  (!optActive defect_type || decide (r.defect_type = defect_type.getD "")) &&
  (!optActive severity || decide (r.severity = severity.getD "")) &&
  (!optActive action || decide (r.action = action.getD "")) &&
  (!optActive location || likeContains r.location (location.getD "")) &&
  (!optActive keyword ||
    (likeContains r.file_name (keyword.getD "") ||
     likeContains r.detail (keyword.getD "") ||
     likeContains r.location (keyword.getD ""))) &&
  (!optActive date_from || decide (datePart (date_from.getD "") ≤ datePart r.ts)) &&
  (!optActive date_to || decide (datePart r.ts ≤ datePart (date_to.getD "")))

/-- Function `search_results` (`db.py` lines 148-174): filter by the conjunction
of the active predicates, order by `datetime(ts) DESC, id DESC`, truncate
to `limit`. -/
def search_results (defect_type severity action location keyword date_from
    date_to : Option String) (limit : Nat) (s : Store) : List Record :=
  (orderRows (s.records.filter
    (searchPred defect_type severity action location keyword date_from date_to))).take limit

/-- Function `delete_results` (`db.py` lines 176-187): an empty id list returns 0
without touching the store; otherwise DELETE every row whose id is in the
list and return `rowcount`, the number of rows deleted. -/
def delete_results (ids : List Nat) (s : Store) : Nat × Store :=
  if ids.isEmpty then (0, s)
  else
    ((s.records.filter (fun r => ids.contains r.id)).length,
     { s with records := s.records.filter (fun r => ¬ ids.contains r.id) })

/-! ## Theorems -/

/-- The final label of `classify_probs`, unfolded: the abstention test of
`local_ai_api.py` lines 242-246. -/
theorem classify_probs_label_eq (pd ps pl : List ℚ) :
    (classify_probs pd ps pl).label =
      if (argmax pd).2 < NO_DEFECT_THRESHOLD then "no_defect"
      else map_internal_defect_to_config (INTERNAL_DEFECT_LABELS.getD (argmax pd).1 "") :=
  rfl

/-- C3: for every defect-class probability vector, an arg-max confidence
at or above the 0.25 threshold yields the config-mapped winning defect
label (no abstention exactly at the threshold), and an arg-max confidence
strictly below the threshold yields the distinguished label
`"no_defect"`, regardless of which class won. -/
theorem classify_abstention_threshold (pd ps pl : List ℚ) (_h6 : pd.length = 6) :
    (NO_DEFECT_THRESHOLD ≤ (argmax pd).2 →
      (classify_probs pd ps pl).label =
        map_internal_defect_to_config (INTERNAL_DEFECT_LABELS.getD (argmax pd).1 "")) ∧
    ((argmax pd).2 < NO_DEFECT_THRESHOLD →
      (classify_probs pd ps pl).label = "no_defect") := by
  constructor
  · intro h
    rw [classify_probs_label_eq, if_neg (not_lt.mpr h)]
  · intro h
    rw [classify_probs_label_eq, if_pos h]

/-- Witness for C3 at concrete inputs: a winning confidence exactly at
the 0.25 threshold is not abstained (it maps to `"dent"`); confidence
0.2 is abstained. -/
theorem classify_abstention_threshold_witness :
    (classify_probs [mkRat 1 4, 0, 0, 0, 0, 0] [1, 0, 0] [1, 0, 0]).label =
      map_internal_defect_to_config
        (INTERNAL_DEFECT_LABELS.getD (argmax [mkRat 1 4, 0, 0, 0, 0, 0]).1 "") ∧
    (classify_probs [mkRat 1 5, 0, 0, 0, 0, 0] [1, 0, 0] [1, 0, 0]).label = "no_defect" :=
  ⟨(classify_abstention_threshold [mkRat 1 4, 0, 0, 0, 0, 0] [1, 0, 0] [1, 0, 0]
      (by decide)).1 (by decide),
   (classify_abstention_threshold [mkRat 1 5, 0, 0, 0, 0, 0] [1, 0, 0] [1, 0, 0]
      (by decide)).2 (by decide)⟩

/-- C4: the action decision table is total and exact — the no-finding
label yields Pass for every tier, and any other label yields Reject on
tier A, Rework on tier B and Hold on tier C. -/
theorem decide_action_table (label tier : String) :
    decide_action "no_defect" tier = "Pass" ∧
    (label ≠ "no_defect" →
      (tier = "A" → decide_action label tier = "Reject") ∧
      (tier = "B" → decide_action label tier = "Rework") ∧
      (tier = "C" → decide_action label tier = "Hold")) := by
  constructor
  · rfl
  · intro h
    unfold decide_action
    rw [if_neg h]
    refine ⟨fun ht => by rw [ht]; decide, fun ht => by rw [ht]; decide,
      fun ht => by rw [ht]; decide⟩

/-- Witness for C4 at concrete labels and tiers. -/
theorem decide_action_table_witness :
    decide_action "no_defect" "B" = "Pass" ∧
    decide_action "dent" "A" = "Reject" ∧
    decide_action "dent" "B" = "Rework" ∧
    decide_action "dent" "C" = "Hold" :=
  ⟨(decide_action_table "dent" "B").1,
   ((decide_action_table "dent" "A").2 (by decide)).1 rfl,
   ((decide_action_table "dent" "B").2 (by decide)).2.1 rfl,
   ((decide_action_table "dent" "C").2 (by decide)).2.2 rfl⟩

/-- C5: the example scenario — defect probabilities
`[0.05, 0.05, 0.05, 0.05, 0.05, 0.75]`, severity `[0.1, 0.1, 0.8]`,
location `[0.7, 0.2, 0.1]` — produces the verdict with the sixth internal
label `"tire flat"` (which the config map sends to itself), confidence
0.75, tier A, zone `"front"` and action Reject. -/
theorem classify_example_scenario :
    map_internal_defect_to_config (INTERNAL_DEFECT_LABELS.getD 5 "") = "tire flat" ∧
    classify_probs [mkRat 1 20, mkRat 1 20, mkRat 1 20, mkRat 1 20, mkRat 1 20, mkRat 3 4]
        [mkRat 1 10, mkRat 1 10, mkRat 4 5] [mkRat 7 10, mkRat 2 10, mkRat 1 10] =
      { label := "tire flat"
        confidence := mkRat 3 4
        description := build_description "tire flat" "A" "front"
        severity := "A"
        location := "front"
        action := "Reject" } := by
  decide

/-- C8 (divergence witness): on the all-zero defect probability vector
the engine does not raise any input-validation error — `classify_probs`
silently returns a complete verdict (confidence 0 falls below the
threshold, so the label is `"no_defect"` and the action is Pass). -/
theorem classify_allzero_returns_verdict :
    classify_probs [0, 0, 0, 0, 0, 0] [1, 0, 0] [1, 0, 0] =
      { label := "no_defect"
        confidence := 0
        description := build_description "no_defect" "C" "front"
        severity := "C"
        location := "front"
        action := "Pass" } := by
  decide


/-- C6: for every store state and every limit, search with every
predicate omitted returns exactly the same sequence of records, in the
same order, as fetch with that limit. -/
theorem search_no_predicates_eq_fetch (L : Nat) (s : Store) :
    search_results none none none none none none none L s = fetch_results L s := by
  have hp : ∀ r : Record, searchPred none none none none none none none r = true := by
    intro r
    simp [searchPred, optActive]
  simp [search_results, fetch_results, List.filter_eq_self.mpr (fun r _ => hp r)]

/-- Helper: `List.contains` as a decidable membership test. -/
theorem contains_eq_decide_mem (ids : List Nat) (n : Nat) :
    ids.contains n = decide (n ∈ ids) := by
  by_cases h : n ∈ ids <;> simp [h]

/-- C9: delete on an empty id list returns 0 and changes nothing; in
general it removes exactly the records whose ids are listed (in
particular non-existing ids are skipped), keeps every other record
unchanged and in place, keeps the id counter, and returns the number of
records actually removed. -/
theorem delete_results_spec (ids : List Nat) (s : Store) :
    delete_results [] s = (0, s) ∧
    (delete_results ids s).1 = (s.records.filter (fun r => decide (r.id ∈ ids))).length ∧
    (delete_results ids s).2.records = s.records.filter (fun r => decide (r.id ∉ ids)) ∧
    (delete_results ids s).2.nextId = s.nextId := by
  refine ⟨rfl, ?_, ?_, ?_⟩ <;>
  · cases ids with
    | nil => simp [delete_results]
    | cons a l =>
      simp only [delete_results, List.isEmpty_cons, contains_eq_decide_mem]
      simp

/-- Helper: the INSERT conflict test holds exactly when some committed
row shares the digest or the path. -/
theorem hashOrPathDup_iff {p ihash : String} {s : Store} :
    hashOrPathDup p ihash s = true ↔
      ∃ r ∈ s.records, r.image_hash = ihash ∨ r.image_path = p := by
  simp [hashOrPathDup]

/-- Helper: the digest lookup is empty exactly when no committed row has
the digest. -/
theorem findByHash_eq_none_iff {ihash : String} {s : Store} :
    findByHash ihash s = none ↔ ∀ r ∈ s.records, r.image_hash ≠ ihash := by
  simp [findByHash, List.find?_eq_none]

/-- Concrete one-record store used by witnesses: the result of a first
successful insert. -/
def s1 : Store :=
  { records := [mkRecord 1 "/a/x.jpg" "h1" "dent" "A" "front" 0 "" "Hold" "2024-01-01 00:00:00"]
    nextId := 2 }

/-- C1: insert is conflict-tolerant and content-deduplicating — when some
record already holds the same digest or the same path the call returns
false and leaves the store untouched (INSERT OR IGNORE raises nothing);
when digest and path are both new it appends exactly one record and
returns true; and at-most-one-record-per-digest is preserved. -/
theorem insert_result_dedup (s : Store) (p ihash dt sev loc : String) (sc : ℚ)
    (d a : String) (ts : Option String) (now : String) :
    ((∃ r ∈ s.records, r.image_hash = ihash ∨ r.image_path = p) →
      insert_result p ihash dt sev loc sc d a ts now s = (false, s)) ∧
    ((∀ r ∈ s.records, r.image_hash ≠ ihash ∧ r.image_path ≠ p) →
      insert_result p ihash dt sev loc sc d a ts now s =
        (true, Store.mk
          (s.records ++ [mkRecord s.nextId p ihash dt sev loc sc d a (ts.getD now)])
          (s.nextId + 1))) ∧
    (s.records.Pairwise (fun r1 r2 => r1.image_hash ≠ r2.image_hash) →
      (insert_result p ihash dt sev loc sc d a ts now s).2.records.Pairwise
        (fun r1 r2 => r1.image_hash ≠ r2.image_hash)) := by
  refine ⟨?_, ?_, ?_⟩
  · rintro ⟨r, hr, hor⟩
    have hc : hashOrPathDup p ihash s = true := hashOrPathDup_iff.mpr ⟨r, hr, hor⟩
    simp [insert_result, hc]
  · intro h
    have hc : hashOrPathDup p ihash s = false := by
      rw [Bool.eq_false_iff]
      intro hcc
      rcases hashOrPathDup_iff.mp hcc with ⟨r, hr, hor⟩
      rcases h r hr with ⟨h1, h2⟩
      tauto
    simp [insert_result, hc]
  · intro hp
    by_cases hc : hashOrPathDup p ihash s = true
    · simpa [insert_result, hc] using hp
    · have hc' : hashOrPathDup p ihash s = false := Bool.eq_false_iff.mpr hc
      have hnone : ∀ r ∈ s.records, ¬(r.image_hash = ihash ∨ r.image_path = p) := by
        intro r hr hor
        exact hc (hashOrPathDup_iff.mpr ⟨r, hr, hor⟩)
      simp only [insert_result, hc', Bool.false_eq_true, if_false]
      rw [List.pairwise_append]
      refine ⟨hp, by simp, ?_⟩
      intro x hx b hb
      rw [List.mem_singleton] at hb
      subst hb
      have hne := hnone x hx
      simp only [mkRecord]
      intro hcontra
      exact hne (Or.inl hcontra)

/-- Witness for C1 on a concrete store: inserting content `h1` again
(from a different path) is refused with the store unchanged, while a
fresh digest and path append one record, preserving digest uniqueness. -/
theorem insert_result_dedup_witness :
    insert_result "/b/y.jpg" "h1" "scratch" "B" "rear" 0 "" "Hold"
        (some "2024-01-02 00:00:00") "2024-01-02 00:00:00" s1 = (false, s1) ∧
    insert_result "/b/y.jpg" "h2" "scratch" "B" "rear" 0 "" "Hold"
        (some "2024-01-02 00:00:00") "2024-01-02 00:00:00" s1 =
      (true, Store.mk
        (s1.records ++ [mkRecord s1.nextId "/b/y.jpg" "h2" "scratch" "B" "rear" 0 "" "Hold"
          ((some "2024-01-02 00:00:00").getD "2024-01-02 00:00:00")])
        (s1.nextId + 1)) ∧
    (insert_result "/b/y.jpg" "h2" "scratch" "B" "rear" 0 "" "Hold"
        (some "2024-01-02 00:00:00") "2024-01-02 00:00:00" s1).2.records.Pairwise
      (fun r1 r2 => r1.image_hash ≠ r2.image_hash) :=
  ⟨(insert_result_dedup s1 "/b/y.jpg" "h1" "scratch" "B" "rear" 0 "" "Hold"
      (some "2024-01-02 00:00:00") "2024-01-02 00:00:00").1 (by decide),
   (insert_result_dedup s1 "/b/y.jpg" "h2" "scratch" "B" "rear" 0 "" "Hold"
      (some "2024-01-02 00:00:00") "2024-01-02 00:00:00").2.1 (by decide),
   (insert_result_dedup s1 "/b/y.jpg" "h2" "scratch" "B" "rear" 0 "" "Hold"
      (some "2024-01-02 00:00:00") "2024-01-02 00:00:00").2.2 (by decide)⟩

/-- C10: upsert on content whose digest is new but whose path collides
with an existing record takes the plain-INSERT branch, which violates the
unique path index: the call raises `IntegrityError` and no record is
created. -/
theorem upsert_insert_branch_path_conflict (s : Store) (p ihash dt sev loc : String)
    (sc : ℚ) (d a : String) (ts : Option String) (now : String)
    (hno : ∀ r ∈ s.records, r.image_hash ≠ ihash)
    (hpath : ∃ r ∈ s.records, r.image_path = p) :
    upsert_result p ihash dt sev loc sc d a ts now s =
      (Except.error IntegrityError.uniqueViolation, s) := by
  have hfind : findByHash ihash s = none := findByHash_eq_none_iff.mpr hno
  obtain ⟨r, hr, hp⟩ := hpath
  have hany : hashOrPathDup p ihash s = true := hashOrPathDup_iff.mpr ⟨r, hr, Or.inr hp⟩
  simp [upsert_result, hfind, hany]

/-- Witness for C10: a fresh digest at the already-present path
`/a/x.jpg` of `s1` errors out and leaves the store untouched. -/
theorem upsert_insert_branch_path_conflict_witness :
    upsert_result "/a/x.jpg" "hNEW" "dent" "B" "front" 0 "" "Hold" none "2024" s1 =
      (Except.error IntegrityError.uniqueViolation, s1) :=
  upsert_insert_branch_path_conflict s1 "/a/x.jpg" "hNEW" "dent" "B" "front" 0 "" "Hold"
    none "2024" (by decide) (by decide)

/-- C7: every record affected by an insert or upsert stores a defect
label drawn from the configured external label set — an unrecognized
label argument is coerced to the default first entry `"no_defect"`
before being stored — and neither operation's outcome (the boolean of
insert, the id-or-error of upsert) depends on whether the label was
recognized. -/
theorem stored_label_always_configured (s : Store) (p ihash dt dt2 sev loc : String)
    (sc : ℚ) (d a : String) (ts : Option String) (now : String) :
    coerceLabel dt ∈ DEFECT_LABELS ∧
    (dt ∉ DEFECT_LABELS → coerceLabel dt = "no_defect") ∧
    (∀ r ∈ (insert_result p ihash dt sev loc sc d a ts now s).2.records,
      r ∈ s.records ∨ r.defect_type = coerceLabel dt) ∧
    (∀ r ∈ (upsert_result p ihash dt sev loc sc d a ts now s).2.records,
      r ∈ s.records ∨ r.defect_type = coerceLabel dt) ∧
    (insert_result p ihash dt sev loc sc d a ts now s).1 =
      (insert_result p ihash dt2 sev loc sc d a ts now s).1 ∧
    (upsert_result p ihash dt sev loc sc d a ts now s).1 =
      (upsert_result p ihash dt2 sev loc sc d a ts now s).1 := by
  refine ⟨?_, ?_, ?_, ?_, ?_, ?_⟩
  · by_cases h : dt ∈ DEFECT_LABELS
    · simp [coerceLabel, h]
    · unfold coerceLabel
      rw [if_neg h]
      decide
  · intro h
    unfold coerceLabel
    rw [if_neg h]
    decide
  · intro r hr
    by_cases hc : hashOrPathDup p ihash s = true
    · left
      simpa [insert_result, hc] using hr
    · have hc' := Bool.eq_false_iff.mpr hc
      simp [insert_result, hc'] at hr
      rcases hr with h1 | h2
      · exact Or.inl h1
      · right
        subst h2
        simp [mkRecord]
  · intro r hr
    cases hfind : findByHash ihash s with
    | none =>
      by_cases hc : hashOrPathDup p ihash s = true
      · left
        simpa [upsert_result, hfind, hc] using hr
      · have hc' := Bool.eq_false_iff.mpr hc
        simp [upsert_result, hfind, hc'] at hr
        rcases hr with h1 | h2
        · exact Or.inl h1
        · right
          subst h2
          simp [mkRecord]
    | some r0 =>
      by_cases hc : pathTakenByOther r0.id p s = true
      · left
        simpa [upsert_result, hfind, hc] using hr
      · have hc' := Bool.eq_false_iff.mpr hc
        simp [upsert_result, hfind, hc'] at hr
        rcases hr with ⟨x, hx, hfx⟩
        by_cases hid : x.id = r0.id
        · right
          rw [if_pos hid] at hfx
          subst hfx
          rfl
        · left
          rw [if_neg hid] at hfx
          subst hfx
          exact hx
  · by_cases hc : hashOrPathDup p ihash s = true <;> simp [insert_result, hc]
  · cases hfind : findByHash ihash s with
    | none => by_cases hc : hashOrPathDup p ihash s = true <;> simp [upsert_result, hfind, hc]
    | some r0 =>
      by_cases hc : pathTakenByOther r0.id p s = true <;> simp [upsert_result, hfind, hc]

/-- Witness for C7: the unrecognized label `"bogus"` is coerced to
`"no_defect"`, the record appended by a fresh insert into `s1` carries
the coerced label, and insert reports the same success as it would with
the recognized label `"dent"`. -/
theorem stored_label_always_configured_witness :
    coerceLabel "bogus" = "no_defect" ∧
    ((mkRecord s1.nextId "/b/y.jpg" "h2" "bogus" "B" "rear" 0 "" "Hold" "2024") ∈ s1.records ∨
      (mkRecord s1.nextId "/b/y.jpg" "h2" "bogus" "B" "rear" 0 "" "Hold" "2024").defect_type =
        coerceLabel "bogus") ∧
    (insert_result "/b/y.jpg" "h2" "bogus" "B" "rear" 0 "" "Hold" none "2024" s1).1 =
      (insert_result "/b/y.jpg" "h2" "dent" "B" "rear" 0 "" "Hold" none "2024" s1).1 :=
  ⟨(stored_label_always_configured s1 "/b/y.jpg" "h2" "bogus" "dent" "B" "rear" 0 "" "Hold"
      none "2024").2.1 (by decide),
   (stored_label_always_configured s1 "/b/y.jpg" "h2" "bogus" "dent" "B" "rear" 0 "" "Hold"
      none "2024").2.2.1
     (mkRecord s1.nextId "/b/y.jpg" "h2" "bogus" "B" "rear" 0 "" "Hold" "2024") (by decide),
   (stored_label_always_configured s1 "/b/y.jpg" "h2" "bogus" "dent" "B" "rear" 0 "" "Hold"
      none "2024").2.2.2.2.1⟩

deriving instance DecidableEq for Except

/-- C2 counterexample: upsert `h1` (creating id 1 with label `"dent"`),
then upsert the same digest again passing the unrecognized label
`"bogus"` — the call returns the same id 1, but the stored label is the
coerced `"no_defect"`, not the passed `"bogus"`. -/
theorem upsert_roundtrip_counterexample :
    ((upsert_result "/img/a2.jpg" "h1" "bogus" "A" "rear" (mkRat 3 4) "d" "Reject"
        (some "2024-01-02 10:00:00") "2024-01-02 10:00:00"
        (upsert_result "/img/a.jpg" "h1" "dent" "B" "front" (mkRat 1 2) "" "Hold"
          (some "2024-01-01 10:00:00") "2024-01-01 10:00:00" emptyStore).2).1 =
      Except.ok 1) ∧
    ((upsert_result "/img/a2.jpg" "h1" "bogus" "A" "rear" (mkRat 3 4) "d" "Reject"
        (some "2024-01-02 10:00:00") "2024-01-02 10:00:00"
        (upsert_result "/img/a.jpg" "h1" "dent" "B" "front" (mkRat 1 2) "" "Hold"
          (some "2024-01-01 10:00:00") "2024-01-01 10:00:00" emptyStore).2).2.records.map
      Record.defect_type = ["no_defect"]) ∧
    "no_defect" ≠ "bogus" := by
  decide

/-- C2 (amended): two upserts with the same new digest — the first
creates a record with the next id, the second returns the same id and
afterwards every stored field equals the second call's arguments
(file name and path derived from the second path, label coerced into the
configured set, severity, location, score, detail, action and timestamp
all from the second call), with nothing merged from the first call. -/
theorem upsert_roundtrip_latest_wins (s : Store)
    (p1 p2 ihash dt1 dt2 sev1 sev2 loc1 loc2 : String)
    (sc1 sc2 : ℚ) (d1 d2 a1 a2 ts1 ts2 : String)
    (hid : ∀ r ∈ s.records, r.id ≠ s.nextId)
    (hh : ∀ r ∈ s.records, r.image_hash ≠ ihash)
    (hp1 : ∀ r ∈ s.records, r.image_path ≠ p1)
    (hp2 : ∀ r ∈ s.records, r.image_path ≠ p2) :
    (upsert_result p1 ihash dt1 sev1 loc1 sc1 d1 a1 (some ts1) ts1 s).1 =
      Except.ok s.nextId ∧
    (upsert_result p2 ihash dt2 sev2 loc2 sc2 d2 a2 (some ts2) ts2
        (upsert_result p1 ihash dt1 sev1 loc1 sc1 d1 a1 (some ts1) ts1 s).2).1 =
      Except.ok s.nextId ∧
    (upsert_result p2 ihash dt2 sev2 loc2 sc2 d2 a2 (some ts2) ts2
        (upsert_result p1 ihash dt1 sev1 loc1 sc1 d1 a1 (some ts1) ts1 s).2).2.records =
      s.records ++ [mkRecord s.nextId p2 ihash dt2 sev2 loc2 sc2 d2 a2 ts2] := by
  have hfind1 : findByHash ihash s = none := findByHash_eq_none_iff.mpr hh
  have hdup1 : hashOrPathDup p1 ihash s = false := by
    rw [Bool.eq_false_iff]
    intro hcc
    rcases hashOrPathDup_iff.mp hcc with ⟨r, hr, hor⟩
    rcases hor with h | h
    · exact hh r hr h
    · exact hp1 r hr h
  have e1 : upsert_result p1 ihash dt1 sev1 loc1 sc1 d1 a1 (some ts1) ts1 s =
      (Except.ok s.nextId,
       Store.mk (s.records ++ [mkRecord s.nextId p1 ihash dt1 sev1 loc1 sc1 d1 a1 ts1])
         (s.nextId + 1)) := by
    simp [upsert_result, hfind1, hdup1]
  set rec1 := mkRecord s.nextId p1 ihash dt1 sev1 loc1 sc1 d1 a1 ts1 with hrec1
  have hrec1_id : rec1.id = s.nextId := by rw [hrec1]; rfl
  have hrec1_hash : rec1.image_hash = ihash := by rw [hrec1]; rfl
  have hfind2 : findByHash ihash (Store.mk (s.records ++ [rec1]) (s.nextId + 1)) = some rec1 := by
    unfold findByHash
    show ((s.records ++ [rec1]).find? fun r => decide (r.image_hash = ihash)) = some rec1
    rw [List.find?_append]
    have h1 : (s.records.find? fun r => decide (r.image_hash = ihash)) = none := by
      have h2 := findByHash_eq_none_iff.mpr hh
      simpa [findByHash] using h2
    rw [h1]
    simp [hrec1_hash]
  have hptaken : pathTakenByOther rec1.id p2 (Store.mk (s.records ++ [rec1]) (s.nextId + 1)) =
      false := by
    unfold pathTakenByOther
    rw [List.any_eq_false]
    intro r2 hr2
    rcases List.mem_append.mp hr2 with h | h
    · simp only [decide_eq_true_eq]
      rintro ⟨hne, hpp⟩
      exact hp2 r2 h hpp
    · rw [List.mem_singleton] at h
      subst h
      simp
  have e2 : upsert_result p2 ihash dt2 sev2 loc2 sc2 d2 a2 (some ts2) ts2
      (Store.mk (s.records ++ [rec1]) (s.nextId + 1)) =
      (Except.ok rec1.id,
       Store.mk ((s.records ++ [rec1]).map
         (fun r2 => if r2.id = rec1.id then
            { r2 with
              file_name := pathName p2
              image_path := p2
              defect_type := coerceLabel dt2
              severity := sev2
              location := loc2
              score := sc2
              detail := d2
              action := a2
              ts := ts2 }
          else r2)) (s.nextId + 1)) := by
    simp [upsert_result, hfind2, hptaken]
  refine ⟨by rw [e1], ?_, ?_⟩
  · rw [e1]
    show (upsert_result p2 ihash dt2 sev2 loc2 sc2 d2 a2 (some ts2) ts2
      (Store.mk (s.records ++ [rec1]) (s.nextId + 1))).1 = Except.ok s.nextId
    rw [e2, hrec1_id]
  · rw [e1]
    show (upsert_result p2 ihash dt2 sev2 loc2 sc2 d2 a2 (some ts2) ts2
      (Store.mk (s.records ++ [rec1]) (s.nextId + 1))).2.records =
        s.records ++ [mkRecord s.nextId p2 ihash dt2 sev2 loc2 sc2 d2 a2 ts2]
    rw [e2]
    show ((s.records ++ [rec1]).map _) = _
    rw [List.map_append]
    have hleft : (s.records.map (fun r2 => if r2.id = rec1.id then
        { r2 with
          file_name := pathName p2
          image_path := p2
          defect_type := coerceLabel dt2
          severity := sev2
          location := loc2
          score := sc2
          detail := d2
          action := a2
          ts := ts2 }
      else r2)) = s.records := by
      have hcongr : ∀ r ∈ s.records, (if r.id = rec1.id then
          { r with
            file_name := pathName p2
            image_path := p2
            defect_type := coerceLabel dt2
            severity := sev2
            location := loc2
            score := sc2
            detail := d2
            action := a2
            ts := ts2 }
        else r) = r := by
        intro r hr
        rw [if_neg]
        rw [hrec1_id]
        exact hid r hr
      rw [List.map_congr_left hcongr]
      simp
    rw [hleft]
    simp only [List.map_cons, List.map_nil, if_pos rfl]
    rw [hrec1]
    rfl


/-- Witness for C2 (amended) on the empty store with distinct paths and
an unrecognized second label. -/
theorem upsert_roundtrip_latest_wins_witness :
    (upsert_result "/img/a.jpg" "h1" "dent" "B" "front" (mkRat 1 2) "" "Hold"
        (some "2024-01-01 10:00:00") "2024-01-01 10:00:00" emptyStore).1 =
      Except.ok emptyStore.nextId ∧
    (upsert_result "/img/a2.jpg" "h1" "bogus" "A" "rear" (mkRat 3 4) "d" "Reject"
        (some "2024-01-02 10:00:00") "2024-01-02 10:00:00"
        (upsert_result "/img/a.jpg" "h1" "dent" "B" "front" (mkRat 1 2) "" "Hold"
          (some "2024-01-01 10:00:00") "2024-01-01 10:00:00" emptyStore).2).1 =
      Except.ok emptyStore.nextId ∧
    (upsert_result "/img/a2.jpg" "h1" "bogus" "A" "rear" (mkRat 3 4) "d" "Reject"
        (some "2024-01-02 10:00:00") "2024-01-02 10:00:00"
        (upsert_result "/img/a.jpg" "h1" "dent" "B" "front" (mkRat 1 2) "" "Hold"
          (some "2024-01-01 10:00:00") "2024-01-01 10:00:00" emptyStore).2).2.records =
      emptyStore.records ++ [mkRecord emptyStore.nextId "/img/a2.jpg" "h1" "bogus" "A" "rear"
        (mkRat 3 4) "d" "Reject" "2024-01-02 10:00:00"] :=
  upsert_roundtrip_latest_wins emptyStore "/img/a.jpg" "/img/a2.jpg" "h1" "dent" "bogus"
    "B" "A" "front" "rear" (mkRat 1 2) (mkRat 3 4) "" "d" "Hold" "Reject"
    "2024-01-01 10:00:00" "2024-01-02 10:00:00"
    (by decide) (by decide) (by decide) (by decide)

end VisionQC
